import Mathlib

/-!
# Verification of the citra NFC amiibo core

A shallow embedding of `src/core/hle/service/nfc/amiibo_crypto.cpp` and
`src/core/hle/service/nfc/nfc_device.cpp`, together with theorems settling the
specification claims about the cryptographic codec and the tag-device state
machine.  Bytes are modelled as `Nat` values below 256, byte arrays as
`List Nat`, and machine integers as `Nat` with explicit reduction modulo
`2 ^ 16` or `2 ^ 32` where the source wraps.
-/

set_option maxRecDepth 100000

/-! ## Generic byte and word helpers -/

/-- 2 ^ 32, the modulus of unsigned 32-bit arithmetic. -/
def M32 : Nat := 4294967296

/-- Addition modulo 2 ^ 32. -/
def add32 (a b : Nat) : Nat := (a + b) % M32

/-- Right rotation of a 32-bit word by `n` places. -/
def rotr32 (n x : Nat) : Nat := (x >>> n) ||| ((x <<< (32 - n)) % M32)

/-- Big-endian bytes of a 32-bit word. -/
def be32 (n : Nat) : List Nat :=
  [(n >>> 24) % 256, (n >>> 16) % 256, (n >>> 8) % 256, n % 256]

/-- Big-endian bytes of a 64-bit length field. -/
def be64 (n : Nat) : List Nat :=
  [(n >>> 56) % 256, (n >>> 48) % 256, (n >>> 40) % 256, (n >>> 32) % 256,
   (n >>> 24) % 256, (n >>> 16) % 256, (n >>> 8) % 256, n % 256]

/-- Little-endian bytes of a 16-bit value (host order of the emulated target). -/
def le16 (n : Nat) : List Nat := [n % 256, (n >>> 8) % 256]

/-- Little-endian bytes of a 32-bit value. -/
def le32 (n : Nat) : List Nat :=
  [n % 256, (n >>> 8) % 256, (n >>> 16) % 256, (n >>> 24) % 256]

/-- Little-endian bytes of a 64-bit value. -/
def le64 (n : Nat) : List Nat := le32 (n % M32) ++ le32 (n >>> 32)

/-! ## SHA-256 (FIPS 180-4), the hash CryptoPP supplies to `GenerateKey` -/

/-- The eight initial SHA-256 hash words (FIPS 180-4 section 5.3.3, written
in decimal). -/
def shaH0 : List Nat :=
  [1779033703, 3144134277, 1013904242, 2773480762,
   1359893119, 2600822924, 528734635, 1541459225]

/-- The 64 SHA-256 round constants (FIPS 180-4 section 4.2.2, written in
decimal). -/
def shaK : List Nat :=
  [1116352408, 1899447441, 3049323471, 3921009573, 961987163, 1508970993,
   2453635748, 2870763221, 3624381080, 310598401, 607225278, 1426881987,
   1925078388, 2162078206, 2614888103, 3248222580, 3835390401, 4022224774,
   264347078, 604807628, 770255983, 1249150122, 1555081692, 1996064986,
   2554220882, 2821834349, 2952996808, 3210313671, 3336571891, 3584528711,
   113926993, 338241895, 666307205, 773529912, 1294757372, 1396182291,
   1695183700, 1986661051, 2177026350, 2456956037, 2730485921, 2820302411,
   3259730800, 3345764771, 3516065817, 3600352804, 4094571909, 275423344,
   430227734, 506948616, 659060556, 883997877, 958139571, 1322822218,
   1537002063, 1747873779, 1955562222, 2024104815, 2227730452, 2361852424,
   2428436474, 2756734187, 3204031479, 3329325298]

/-- The first upper-case sigma function of SHA-256 (rotations 2, 13, 22). -/
def sumSig0 (x : Nat) : Nat := rotr32 2 x ^^^ rotr32 13 x ^^^ rotr32 22 x

/-- The second upper-case sigma function of SHA-256 (rotations 6, 11, 25). -/
def sumSig1 (x : Nat) : Nat := rotr32 6 x ^^^ rotr32 11 x ^^^ rotr32 25 x

/-- The first lower-case sigma function of SHA-256 (rotations 7, 18, shift 3). -/
def smallSig0 (x : Nat) : Nat := rotr32 7 x ^^^ rotr32 18 x ^^^ (x >>> 3)

/-- The second lower-case sigma function of SHA-256 (rotations 17, 19, shift 10). -/
def smallSig1 (x : Nat) : Nat := rotr32 17 x ^^^ rotr32 19 x ^^^ (x >>> 10)

/-- SHA-256 choice function; the complement is realised as xor with all-ones. -/
def chooseF (x y z : Nat) : Nat := (x &&& y) ^^^ ((x ^^^ 4294967295) &&& z)

/-- SHA-256 majority function. -/
def majorityF (x y z : Nat) : Nat := (x &&& y) ^^^ (x &&& z) ^^^ (y &&& z)

/-- Merkle–Damgard padding: 0x80, zeros, then the bit length as 8 bytes. -/
def sha256Pad (msg : List Nat) : List Nat :=
  let L := msg.length
  let k := (64 + 56 - (L + 1) % 64) % 64
  msg ++ [0x80] ++ List.replicate k 0 ++ be64 (8 * L)

/-- Group bytes into big-endian 32-bit words. -/
def bytesToWords : List Nat → List Nat
  | a :: b :: c :: d :: rest => (((a * 256 + b) * 256 + c) * 256 + d) :: bytesToWords rest
  | _ => []

/-- Split a word list into chunks of 16 words, driven by a fuel argument so
that the recursion is structural and reduces inside the kernel. -/
def chunk16Fuel : Nat → List Nat → List (List Nat)
  | 0, _ => []
  | _ + 1, [] => []
  | fuel + 1, x :: xs => (x :: xs.take 15) :: chunk16Fuel fuel (xs.drop 15)

/-- Split a word list into chunks of 16 words (one SHA-256 block each). -/
def chunk16 (l : List Nat) : List (List Nat) := chunk16Fuel l.length l

/-- One step of the message-schedule extension, appending word `w.length`. -/
def scheduleStep (w : List Nat) : List Nat :=
  let n := w.length
  w ++ [add32 (add32 (smallSig1 (w.getD (n - 2) 0)) (w.getD (n - 7) 0))
              (add32 (smallSig0 (w.getD (n - 15) 0)) (w.getD (n - 16) 0))]

/-- Working state of the SHA-256 compression function. -/
structure Sha256State where
  a : Nat
  b : Nat
  c : Nat
  d : Nat
  e : Nat
  f : Nat
  g : Nat
  h : Nat
deriving DecidableEq

/-- One SHA-256 round: combines a round constant and schedule word. -/
def compressStep (s : Sha256State) (kw : Nat × Nat) : Sha256State :=
  let t1 := add32 s.h (add32 (sumSig1 s.e) (add32 (chooseF s.e s.f s.g) (add32 kw.1 kw.2)))
  let t2 := add32 (sumSig0 s.a) (majorityF s.a s.b s.c)
  ⟨add32 t1 t2, s.a, s.b, s.c, add32 s.d t1, s.e, s.f, s.g⟩

/-- Compress one 16-word block into the running eight-word hash value. -/
def compressBlock (hs : List Nat) (block : List Nat) : List Nat :=
  let w := scheduleStep^[48] block
  let s0 : Sha256State :=
    ⟨hs.getD 0 0, hs.getD 1 0, hs.getD 2 0, hs.getD 3 0,
     hs.getD 4 0, hs.getD 5 0, hs.getD 6 0, hs.getD 7 0⟩
  let s := (shaK.zip w).foldl compressStep s0
  [add32 (hs.getD 0 0) s.a, add32 (hs.getD 1 0) s.b, add32 (hs.getD 2 0) s.c,
   add32 (hs.getD 3 0) s.d, add32 (hs.getD 4 0) s.e, add32 (hs.getD 5 0) s.f,
   add32 (hs.getD 6 0) s.g, add32 (hs.getD 7 0) s.h]

/-- SHA-256 digest (32 bytes) of a byte string. -/
def sha256 (msg : List Nat) : List Nat :=
  let blocks := chunk16 (bytesToWords (sha256Pad msg))
  ((blocks.foldl compressBlock shaH0).map be32).flatten

/-- HMAC-SHA256 (RFC 2104) with byte-string key and message. -/
def hmacSha256 (key msg : List Nat) : List Nat :=
  let k0 := if 64 < key.length then sha256 key else key
  let kpad := k0 ++ List.replicate (64 - k0.length) 0
  let ipad := kpad.map (fun b => b ^^^ 0x36)
  let opad := kpad.map (fun b => b ^^^ 0x5c)
  sha256 (opad ++ sha256 (ipad ++ msg))

/-! ## CRC routines used by `NfcDevice` (boost::crc) -/

/-- One byte of the reflected CRC-32 (polynomial 0xEDB88320). -/
def crc32Byte (crc byte : Nat) : Nat :=
  (fun step => step^[8] (crc ^^^ byte))
    (fun c => if c % 2 = 1 then (c >>> 1) ^^^ 0xedb88320 else c >>> 1)

/-- boost::crc_32_type: init 0xFFFFFFFF, reflected, final xor 0xFFFFFFFF. -/
def crc32 (data : List Nat) : Nat :=
  (data.foldl crc32Byte 0xffffffff) ^^^ 0xffffffff

/-- One byte of the unreflected CRC-16 with polynomial 0x1021. -/
def crc16Byte (crc byte : Nat) : Nat :=
  (fun step => step^[8] ((crc ^^^ (byte <<< 8)) % 65536))
    (fun c => if 32768 ≤ c then ((c <<< 1) ^^^ 0x1021) % 65536 else (c <<< 1) % 65536)

/-- boost::crc with bits 16, poly 0x1021, init 0, no reflection, no xor. -/
def crc16 (data : List Nat) : Nat := data.foldl crc16Byte 0

/-! ## Tag image data model

The struct definitions live in `amiibo_crypto.h` / `nfc_types.h`, which are not
part of the available sources; the structures below are modelled from the
specification's data model (sections 3 and 4) plus the member accesses made by
`amiibo_crypto.cpp` and `nfc_device.cpp`.  Byte arrays are `List Nat`.
-/

/-- Modelled from the spec: the amiibo model-info block of the missing header
(character id and variant, amiibo type, model number, series, and a constant
marker byte that `IsAmiiboValid` checks against 0x02). -/
structure AmiiboModelInfo where
  character_id : Nat
  character_variant : Nat
  amiibo_type : Nat
  model_number : Nat
  series : Nat
  constant_value : Nat
deriving DecidableEq

/-- Modelled from the spec: the settings block of the missing header.  The
`settings` member is the raw bit-flag byte of the packed union, with
`font_region` in bits 0-3, `amiibo_initialized` in bit 4 and
`appdata_initialized` in bit 5, as read off `GetAdminInfo`'s use of
`raw >> 0x4` and `flags & 0xfe`.  Dates are raw 16-bit values with day in
bits 0-4, month in bits 5-8 and year in bits 9-15. -/
structure AmiiboSettings where
  amiibo_name : List Nat
  settings : Nat
  crc_counter : Nat
  init_date : Nat
  write_date : Nat
  crc : Nat
  country_code_id : Nat
deriving DecidableEq

/-- Bit 4 of the raw settings byte: `amiibo_initialized`. -/
def settingsAmiiboInitialized (raw : Nat) : Nat := (raw >>> 4) &&& 1

/-- Bit 5 of the raw settings byte: `appdata_initialized`. -/
def settingsAppdataInitialized (raw : Nat) : Nat := (raw >>> 5) &&& 1

/-- Bits 0-3 of the raw settings byte: `font_region`. -/
def settingsFontRegion (raw : Nat) : Nat := raw &&& 0xf

/-- Write bit `i` of a raw flag byte to `v` (0 or 1), as `BitField::Assign`. -/
def assignBit (raw i v : Nat) : Nat :=
  if v = 0 then raw &&& (0xff ^^^ (1 <<< i)) else raw ||| (1 <<< i)

/-- Clear bits 0-3 (`font_region.Assign(0)`). -/
def assignFontRegion0 (raw : Nat) : Nat := raw &&& 0xf0

/-- Modelled from the spec: the logical (plaintext) tag image `NTAG215File` of
the missing header.  Its members are the union of every member the two source
files access: `amiibo_crypto.cpp` uses `uuid2`, `title_id`,
`applicaton_write_counter` and `hash`, while `nfc_device.cpp` additionally
uses `amiibo_version`, `application_id`, `application_write_counter`,
`application_id_byte`, `owner_mii_aes_ccm`, `mii_extension`, `unknown2` and
`register_info_crc`; for both files to compile against the single header all
of these must be distinct members. -/
structure NTAG215File where
  uuid2 : List Nat
  static_lock : Nat
  compability_container : Nat
  hmac_data : List Nat
  constant_value : Nat
  write_counter : Nat
  amiibo_version : Nat
  settings : AmiiboSettings
  owner_mii : List Nat
  owner_mii_aes_ccm : Nat
  title_id : Nat
  application_id : Nat
  applicaton_write_counter : Nat
  application_write_counter : Nat
  application_area_id : Nat
  application_id_byte : Nat
  unknown : Nat
  mii_extension : Nat
  unknown2 : List Nat
  register_info_crc : Nat
  hash : Nat
  application_area : List Nat
  hmac_tag : List Nat
  uuid : List Nat
  model_info : AmiiboModelInfo
  keygen_salt : List Nat
  dynamic_lock : Nat
  CFG0 : Nat
  CFG1 : Nat
  password : Nat
deriving DecidableEq

/-- Modelled from the spec: the user-memory block of the hardware-format image
(the encrypted counterpart of the logical fields the codec transfers). -/
structure EncryptedAmiiboFile where
  hmac_data : List Nat
  constant_value : Nat
  write_counter : Nat
  settings : AmiiboSettings
  owner_mii : List Nat
  title_id : Nat
  applicaton_write_counter : Nat
  application_area_id : Nat
  unknown : Nat
  hash : Nat
  application_area : List Nat
  hmac_tag : List Nat
  model_info : AmiiboModelInfo
  keygen_salt : List Nat
deriving DecidableEq

/-- Modelled from the spec: the hardware-format `EncryptedNTAG215File` of the
missing header.  `uuid` is the 10-byte serial region (7-byte uid, a byte of
Nintendo id and two check bytes in hardware placement) that
`amiibo_crypto.cpp` indexes as a plain byte array. -/
structure EncryptedNTAG215File where
  uuid : List Nat
  static_lock : Nat
  compability_container : Nat
  user_memory : EncryptedAmiiboFile
  dynamic_lock : Nat
  CFG0 : Nat
  CFG1 : Nat
  password : Nat
deriving DecidableEq

/-- Modelled from the spec: a master key template (`InternalKey`) from the
key-store file: HMAC seed key (16 bytes), fixed 14-byte type string, magic
length and 16 magic bytes, and a 32-byte xor pad for the salt. -/
structure InternalKey where
  hmac_key : List Nat
  type_string : List Nat
  magic_length : Nat
  magic_bytes : List Nat
  xor_pad : List Nat
deriving DecidableEq

/-- Modelled from the spec: the seed `HashSeed` built by `GetSeed` — a 32-bit
magic taken from the write counter, padding, two copies of the first 8 serial
bytes, and the keygen salt. -/
structure HashSeed where
  magic : Nat
  uuid1 : List Nat
  uuid2 : List Nat
  keygen_salt : List Nat
deriving DecidableEq

/-- Modelled from the spec: the derived key set (AES key, AES IV, HMAC key,
16 bytes each) filled by `memcpy` from the HMAC digest. -/
structure DerivedKeys where
  aes_key : List Nat
  aes_iv : List Nat
  hmac_key : List Nat
deriving DecidableEq

/-- Zero value of the settings block, as C++ value-initialisation. -/
def AmiiboSettings.empty : AmiiboSettings :=
  { amiibo_name := List.replicate 20 0
    settings := 0
    crc_counter := 0
    init_date := 0
    write_date := 0
    crc := 0
    country_code_id := 0 }

/-- Zero value of the model-info block. -/
def AmiiboModelInfo.empty : AmiiboModelInfo :=
  { character_id := 0, character_variant := 0, amiibo_type := 0
    model_number := 0, series := 0, constant_value := 0 }

/-- Zero value of the logical tag image, as C++ `NTAG215File{}`. -/
def NTAG215File.empty : NTAG215File :=
  { uuid2 := List.replicate 2 0
    static_lock := 0
    compability_container := 0
    hmac_data := List.replicate 32 0
    constant_value := 0
    write_counter := 0
    amiibo_version := 0
    settings := AmiiboSettings.empty
    owner_mii := List.replicate 92 0
    owner_mii_aes_ccm := 0
    title_id := 0
    application_id := 0
    applicaton_write_counter := 0
    application_write_counter := 0
    application_area_id := 0
    application_id_byte := 0
    unknown := 0
    mii_extension := 0
    unknown2 := List.replicate 5 0
    register_info_crc := 0
    hash := 0
    application_area := List.replicate 216 0
    hmac_tag := List.replicate 32 0
    uuid := List.replicate 8 0
    model_info := AmiiboModelInfo.empty
    keygen_salt := List.replicate 32 0
    dynamic_lock := 0
    CFG0 := 0
    CFG1 := 0
    password := 0 }

/-- Zero value of the encrypted user memory. -/
def EncryptedAmiiboFile.empty : EncryptedAmiiboFile :=
  { hmac_data := List.replicate 32 0
    constant_value := 0
    write_counter := 0
    settings := AmiiboSettings.empty
    owner_mii := List.replicate 92 0
    title_id := 0
    applicaton_write_counter := 0
    application_area_id := 0
    unknown := 0
    hash := 0
    application_area := List.replicate 216 0
    hmac_tag := List.replicate 32 0
    model_info := AmiiboModelInfo.empty
    keygen_salt := List.replicate 32 0 }

/-- Zero value of the hardware-format image, as C++ `EncryptedNTAG215File{}`. -/
def EncryptedNTAG215File.empty : EncryptedNTAG215File :=
  { uuid := List.replicate 10 0
    static_lock := 0
    compability_container := 0
    user_memory := EncryptedAmiiboFile.empty
    dynamic_lock := 0
    CFG0 := 0
    CFG1 := 0
    password := 0 }

/-! ## amiibo_crypto.cpp -/

/-- Read exactly `n` bytes from a byte array, as a fixed-size `memcpy` source;
in C++ the arrays always hold `n` bytes, so the zero padding used for short
lists can never be observed there. -/
def memTake (l : List Nat) (n : Nat) : List Nat := (l ++ List.replicate n 0).take n

/-- The bytes written by `memccpy(dst, src, 0, n)`: copies up to `n` bytes
and stops after copying a zero byte. -/
def copyThroughNul : Nat → List Nat → List Nat
  | 0, _ => []
  | _, [] => []
  | n + 1, b :: rest => if b = 0 then [0] else b :: copyThroughNul n rest

/-- `IsAmiiboValid` of amiibo_crypto.cpp: serial-number xor self-checks and
the fixed hardware constants. -/
def IsAmiiboValid (ntag_file : EncryptedNTAG215File) : Bool :=
  let amiibo_data := ntag_file.user_memory
  let u := fun i => ntag_file.uuid.getD i 0
  if (0x88 ^^^ u 0 ^^^ u 1 ^^^ u 2) ≠ u 3 then false
  else if (u 4 ^^^ u 5 ^^^ u 6 ^^^ u 7) ≠ u 8 then false
  else if ntag_file.static_lock ≠ 0xe00f then false
  else if ntag_file.compability_container ≠ 0xeeff10f1 then false
  else if amiibo_data.constant_value ≠ 0xa5 then false
  else if amiibo_data.model_info.constant_value ≠ 0x02 then false
  else if ntag_file.CFG0 ≠ 0x04000000 then false
  else if ntag_file.CFG1 ≠ 0x5f then false
  else true

/-- `NfcDataToEncodedData`: hardware layout to logical layout.  Starts from a
value-initialised `NTAG215File{}` and assigns the listed fields. -/
def NfcDataToEncodedData (nfc_data : EncryptedNTAG215File) : NTAG215File :=
  { NTAG215File.empty with
    uuid2 := memTake (nfc_data.uuid.drop 8) 2
    static_lock := nfc_data.static_lock
    compability_container := nfc_data.compability_container
    hmac_data := nfc_data.user_memory.hmac_data
    constant_value := nfc_data.user_memory.constant_value
    write_counter := nfc_data.user_memory.write_counter
    settings := nfc_data.user_memory.settings
    owner_mii := nfc_data.user_memory.owner_mii
    title_id := nfc_data.user_memory.title_id
    applicaton_write_counter := nfc_data.user_memory.applicaton_write_counter
    application_area_id := nfc_data.user_memory.application_area_id
    unknown := nfc_data.user_memory.unknown
    hash := nfc_data.user_memory.hash
    application_area := nfc_data.user_memory.application_area
    hmac_tag := nfc_data.user_memory.hmac_tag
    uuid := memTake nfc_data.uuid 8
    model_info := nfc_data.user_memory.model_info
    keygen_salt := nfc_data.user_memory.keygen_salt
    dynamic_lock := nfc_data.dynamic_lock
    CFG0 := nfc_data.CFG0
    CFG1 := nfc_data.CFG1
    password := nfc_data.password }

/-- `EncodedDataToNfcData`: logical layout back to hardware layout.  The two
`memcpy` calls place the 8-byte serial part at offset 0 and the 2-byte part at
offset 8 of the 10-byte hardware serial region. -/
def EncodedDataToNfcData (encoded_data : NTAG215File) : EncryptedNTAG215File :=
  { uuid := memTake encoded_data.uuid 8 ++ memTake encoded_data.uuid2 2
    static_lock := encoded_data.static_lock
    compability_container := encoded_data.compability_container
    user_memory :=
      { hmac_data := encoded_data.hmac_data
        constant_value := encoded_data.constant_value
        write_counter := encoded_data.write_counter
        settings := encoded_data.settings
        owner_mii := encoded_data.owner_mii
        title_id := encoded_data.title_id
        applicaton_write_counter := encoded_data.applicaton_write_counter
        application_area_id := encoded_data.application_area_id
        unknown := encoded_data.unknown
        hash := encoded_data.hash
        application_area := encoded_data.application_area
        hmac_tag := encoded_data.hmac_tag
        model_info := encoded_data.model_info
        keygen_salt := encoded_data.keygen_salt }
    dynamic_lock := encoded_data.dynamic_lock
    CFG0 := encoded_data.CFG0
    CFG1 := encoded_data.CFG1
    password := encoded_data.password }

/-- `GetSeed`: both 8-byte serial copies are taken from the first 8 bytes of
the logical serial number. -/
def GetSeed (data : NTAG215File) : HashSeed :=
  { magic := data.write_counter
    uuid1 := memTake data.uuid 8
    uuid2 := memTake data.uuid 8
    keygen_salt := data.keygen_salt }

/-- `GenerateInternalKey`: type string (through its terminator), then
`16 - magic_length` leading raw seed bytes (the 32-bit magic and its padding),
then `magic_length` magic bytes, the two serial copies, and the salt xored
with the template's pad. -/
def GenerateInternalKey (key : InternalKey) (seed : HashSeed) : List Nat :=
  let string_size := 14
  let seedPart1Len := 16 - key.magic_length
  memTake (copyThroughNul string_size key.type_string) string_size
    ++ (be32 seed.magic ++ List.replicate 12 0).take seedPart1Len
    ++ key.magic_bytes.take key.magic_length
    ++ seed.uuid1 ++ seed.uuid2
    ++ (List.range 32).map (fun i => seed.keygen_salt.getD i 0 ^^^ key.xor_pad.getD i 0)

/-- Incremental HMAC context mirroring the CryptoPP object in `GenerateKey`:
`Update` accumulates message bytes, `CalculateDigest` appends its input once
more and produces the digest of everything accumulated. -/
structure HmacContext where
  key : List Nat
  acc : List Nat

/-- CryptoPP `HMAC<SHA256> hmac(key, len)`. -/
def HmacContext.init (key : List Nat) : HmacContext := ⟨key, []⟩

/-- CryptoPP `hmac.Update(input, len)`. -/
def HmacContext.update (ctx : HmacContext) (input : List Nat) : HmacContext :=
  ⟨ctx.key, ctx.acc ++ input⟩

/-- CryptoPP `hmac.CalculateDigest(d, input, len)`, which is
`Update(input, len); Final(d)`. -/
def HmacContext.calculateDigest (ctx : HmacContext) (input : List Nat) : List Nat :=
  hmacSha256 ctx.key (ctx.acc ++ input)

/-- `GenerateKey` of amiibo_crypto.cpp.  The source updates the HMAC with the
2-byte prefix and the internal key buffer and then calls `CalculateDigest` on
the internal key buffer again.  The `memcpy` into `crypto_seed` overflows its
16-byte buffer in the source; the bytes hashed are modelled as the copied
internal key bytes.  The final `memcpy` reads `sizeof(DerivedKeys) = 48`
bytes although the digest buffer holds only 32; the bytes past the digest are
uninitialised in the source and are modelled as zero. -/
def GenerateKey (key : InternalKey) (data : NTAG215File) : DerivedKeys :=
  let seed := GetSeed data
  let internal_key := GenerateInternalKey key seed
  let hmac0 := HmacContext.init (memTake key.hmac_key 16)
  let hmac1 := hmac0.update [0x00, 0x01]
  let hmac2 := hmac1.update internal_key
  let d := hmac2.calculateDigest internal_key
  { aes_key := d.take 16
    aes_iv := (d.drop 16).take 16
    hmac_key := memTake (d.drop 32) 16 }

/-- `Cipher` of amiibo_crypto.cpp.  The AES-CTR call over the region from
`settings` to just before `hmac_tag` is commented out in the source, so the
function only copies the listed fields into the output buffer and leaves all
other output fields (including the settings region and both MAC fields) at
their previous values. -/
def Cipher (keys : DerivedKeys) (in_data out_data : NTAG215File) : NTAG215File :=
  { out_data with
    uuid2 := in_data.uuid2
    static_lock := in_data.static_lock
    compability_container := in_data.compability_container
    constant_value := in_data.constant_value
    write_counter := in_data.write_counter
    uuid := in_data.uuid
    model_info := in_data.model_info
    keygen_salt := in_data.keygen_salt
    dynamic_lock := in_data.dynamic_lock
    CFG0 := in_data.CFG0
    CFG1 := in_data.CFG1
    password := in_data.password }

/-- `DecodeAmiibo`.  `LoadKeys` reads the two key templates from the external
key file, modelled as an optional pair (`unfixed_info`, `locked_secret`); the
out-parameter `tag_data` is threaded explicitly.  The HMAC regeneration is
commented out in the source, so the MAC fields of the output buffer keep
their previous values when they are compared. -/
def DecodeAmiibo (keys : Option (InternalKey × InternalKey))
    (encrypted_tag_data : EncryptedNTAG215File) (tag_data : NTAG215File) :
    Bool × NTAG215File :=
  match keys with
  | none => (false, tag_data)
  | some (unfixed_info, locked_secret) =>
    let encoded_data := NfcDataToEncodedData encrypted_tag_data
    let data_keys := GenerateKey unfixed_info encoded_data
    let tag_keys := GenerateKey locked_secret encoded_data
    let tag_data := Cipher data_keys encoded_data tag_data
    if tag_data.hmac_data ≠ encrypted_tag_data.user_memory.hmac_data then
      (false, tag_data)
    else if tag_data.hmac_tag ≠ encrypted_tag_data.user_memory.hmac_tag then
      (false, tag_data)
    else (true, tag_data)

/-- `EncodeAmiibo`.  Both HMAC computations are commented out in the source,
so the freshly value-initialised `encoded_tag_data` keeps zero MAC fields and
a zero settings region; only the fields `Cipher` copies are filled before the
layout transcoding. -/
def EncodeAmiibo (keys : Option (InternalKey × InternalKey))
    (tag_data : NTAG215File) (encrypted_tag_data : EncryptedNTAG215File) :
    Bool × EncryptedNTAG215File :=
  match keys with
  | none => (false, encrypted_tag_data)
  | some (unfixed_info, locked_secret) =>
    let data_keys := GenerateKey unfixed_info tag_data
    let tag_keys := GenerateKey locked_secret tag_data
    let encoded_tag_data := NTAG215File.empty
    let encoded_tag_data := Cipher data_keys tag_data encoded_tag_data
    (true, EncodedDataToNfcData encoded_tag_data)

/-! ## nfc_device.cpp -/

/-- Modelled from the spec: `DeviceState` of the missing `nfc_types.h`. -/
inductive DeviceState where
  | NotInitialized
  | Initialized
  | SearchingForTag
  | TagFound
  | TagMounted
  | TagRemoved
deriving DecidableEq

/-- Modelled from the spec: `MountTarget` of the missing `nfc_types.h`. -/
inductive MountTarget where
  | None
  | Rom
  | Ram
  | All
deriving DecidableEq

/-- The named result constants of `nfc_results.h`, kept distinct by name (in
the source several of them share the numeric code 512). -/
inductive ResultCode where
  | Success
  | WrongDeviceState
  | TagRemoved
  | NotAnAmiibo
  | CorruptedData
  | WriteAmiiboFailed
  | ApplicationAreaIsNotInitialized
  | WrongApplicationAreaId
  | ApplicationAreaExist
  | WrongApplicationAreaSize
  | RegistrationIsNotInitialized
deriving DecidableEq

/-- Modelled from the spec: `counter_limit`, the documented maximum of the
16-bit write counters, from the missing `nfc_types.h`. -/
def counter_limit : Nat := 0xffff

/-- Modelled from the spec: bit position of the version nibble inside an
application id, from the missing `nfc_types.h` (the code masks
`application_id >> 0x38`). -/
def application_id_version_offset : Nat := 0x38

/-- Modelled from the spec: `AppAreaVersion::Nintendo3DSv2`. -/
def appAreaVersionNintendo3DSv2 : Nat := 2

/-- Modelled from the spec: `AppAreaVersion::NotSet`. -/
def appAreaVersionNotSet : Nat := 0xf

/-- The external collaborators of one device call, as the spec's interface
section lists them: the key-store file (existence and parsed templates), the
byte-image persistence success, the wall-clock date source, the random
source (a block of bytes and a stream of generated words), and the program
id of the running application. -/
structure Env where
  keys_file_exists : Bool
  keys : Option (InternalKey × InternalKey)
  write_ok : Bool
  current_date : Nat
  random_bytes : List Nat
  random_words : List Nat
  program_id : Option Nat

/-- The members of `NfcDevice` that the modelled operations touch; the two
kernel events are their signalled flags. -/
structure NfcState where
  device_state : DeviceState
  mount_target : MountTarget
  is_data_moddified : Bool
  is_app_area_open : Bool
  allowed_protocols : Nat
  amiibo_filename : String
  tag : NTAG215File
  encrypted_tag : EncryptedNTAG215File
  tag_in_range_event : Bool
  tag_out_of_range_event : Bool
deriving DecidableEq

/-- An idle device holding no tag. -/
def NfcState.empty : NfcState :=
  { device_state := DeviceState.NotInitialized
    mount_target := MountTarget.None
    is_data_moddified := false
    is_app_area_open := false
    allowed_protocols := 0
    amiibo_filename := ""
    tag := NTAG215File.empty
    encrypted_tag := EncryptedNTAG215File.empty
    tag_in_range_event := false
    tag_out_of_range_event := false }

/-- The 16-bit increment `counter++` guarded by `!= counter_limit`. -/
def guardedIncrement (c : Nat) : Nat :=
  if c ≠ counter_limit then (c + 1) % 65536 else c

/-- `NfcDevice::RemoveVersionByte`. -/
def NfcDevice.RemoveVersionByte (application_id : Nat) : Nat :=
  application_id &&& (0xffffffffffffffff ^^^ (0xf <<< application_id_version_offset))

/-- `NfcDevice::UpdateSettingsCrc`: guarded counter bump and a CRC-32 of an
8-byte zero buffer (the source reads a global it marks as unknown). -/
def NfcDevice.UpdateSettingsCrc (tag : NTAG215File) : NTAG215File :=
  { tag with settings :=
      { tag.settings with
        crc_counter := guardedIncrement tag.settings.crc_counter
        crc := crc32 (List.replicate 8 0) } }

/-- Little-endian read of a 64-bit value from the first 8 bytes of a buffer,
as the `memcpy` into `application_id` in `DeleteApplicationArea`. -/
def leU64 (l : List Nat) : Nat :=
  (memTake l 8).reverse.foldl (fun acc b => acc * 256 + b) 0

/-- `NfcDevice::UpdateRegisterInfoCrc`: CRC-32 over the packed `CrcData`
record (mii, two padding bytes, mii crc, application id byte, unknown, mii
extension, unknown2), serialised in the host's little-endian order. -/
def NfcDevice.UpdateRegisterInfoCrc (tag : NTAG215File) : NTAG215File :=
  let crc_data :=
    tag.owner_mii ++ [0, 0] ++ le16 tag.owner_mii_aes_ccm
      ++ [tag.application_id_byte % 256, tag.unknown % 256]
      ++ le64 tag.mii_extension
      ++ ((List.range 5).map (fun i => le32 (tag.unknown2.getD i 0))).flatten
  { tag with register_info_crc := crc32 crc_data }

/-- `NfcDevice::Initialize`. -/
def NfcDevice.Initialize (s : NfcState) : NfcState :=
  { s with device_state := DeviceState.Initialized
           encrypted_tag := EncryptedNTAG215File.empty
           tag := NTAG215File.empty }

/-- `NfcDevice::StartDetection`. -/
def NfcDevice.StartDetection (allowed_protocol : Nat) (s : NfcState) :
    ResultCode × NfcState :=
  if s.device_state ≠ DeviceState.Initialized ∧
      s.device_state ≠ DeviceState.TagRemoved then
    (ResultCode.WrongDeviceState, s)
  else
    (ResultCode.Success,
      { s with device_state := DeviceState.SearchingForTag
               allowed_protocols := allowed_protocol })

/-- `NfcDevice::Flush`: optional write-date refresh (with settings-CRC
update), unconditional 16-bit write-counter increment, re-encode, then hand
the image to the persistence collaborator; the modified flag is cleared only
when everything succeeded. -/
def NfcDevice.Flush (env : Env) (s : NfcState) : ResultCode × NfcState :=
  if s.device_state ≠ DeviceState.TagMounted then
    (if s.device_state = DeviceState.TagRemoved then ResultCode.TagRemoved
     else ResultCode.WrongDeviceState, s)
  else if s.mount_target = MountTarget.None ∨ s.mount_target = MountTarget.Rom then
    (ResultCode.WrongDeviceState, s)
  else
    let tag1 :=
      if s.tag.settings.write_date ≠ env.current_date then
        NfcDevice.UpdateSettingsCrc
          { s.tag with settings := { s.tag.settings with write_date := env.current_date } }
      else s.tag
    let tag2 := { tag1 with write_counter := (tag1.write_counter + 1) % 65536 }
    let s2 := { s with tag := tag2 }
    match EncodeAmiibo env.keys tag2 s2.encrypted_tag with
    | (false, enc) => (ResultCode.WriteAmiiboFailed, { s2 with encrypted_tag := enc })
    | (true, enc) =>
      let s3 := { s2 with encrypted_tag := enc }
      if s3.amiibo_filename = "" then (ResultCode.WriteAmiiboFailed, s3)
      else if ¬ env.write_ok then (ResultCode.WriteAmiiboFailed, s3)
      else (ResultCode.Success, { s3 with is_data_moddified := false })

/-- `NfcDevice::Mount`. -/
def NfcDevice.Mount (env : Env) (mount_target_ : MountTarget) (s : NfcState) :
    ResultCode × NfcState :=
  if s.device_state ≠ DeviceState.TagFound then (ResultCode.WrongDeviceState, s)
  else if ¬ IsAmiiboValid s.encrypted_tag then (ResultCode.NotAnAmiibo, s)
  else if ¬ env.keys_file_exists then
    (ResultCode.Success,
      { s with device_state := DeviceState.TagMounted, mount_target := MountTarget.Rom })
  else
    match DecodeAmiibo env.keys s.encrypted_tag s.tag with
    | (false, tag1) => (ResultCode.CorruptedData, { s with tag := tag1 })
    | (true, tag1) =>
      (ResultCode.Success,
        { s with tag := tag1
                 device_state := DeviceState.TagMounted
                 mount_target := mount_target_ })

/-- `NfcDevice::Unmount`: flushes first when data was modified (ignoring the
flush result), then releases the mount. -/
def NfcDevice.Unmount (env : Env) (s : NfcState) : ResultCode × NfcState :=
  if s.device_state ≠ DeviceState.TagMounted then
    (if s.device_state = DeviceState.TagRemoved then ResultCode.TagRemoved
     else ResultCode.WrongDeviceState, s)
  else
    let s1 := if s.is_data_moddified then (NfcDevice.Flush env s).2 else s
    (ResultCode.Success,
      { s1 with device_state := DeviceState.TagFound
                mount_target := MountTarget.None
                is_app_area_open := false })

/-- `NfcDevice::CloseAmiibo`: unmounts if needed, clears both images and the
filename, lands in `TagRemoved` and swaps the two range events. -/
def NfcDevice.CloseAmiibo (env : Env) (s : NfcState) : NfcState :=
  let s1 := if s.device_state = DeviceState.TagMounted then (NfcDevice.Unmount env s).2 else s
  { s1 with amiibo_filename := ""
            device_state := DeviceState.TagRemoved
            encrypted_tag := EncryptedNTAG215File.empty
            tag := NTAG215File.empty
            tag_in_range_event := false
            tag_out_of_range_event := true }

/-- `NfcDevice::StopDetection`.  Note the two state tests are separate `if`
statements: after `CloseAmiibo` has set `TagRemoved`, the second test sees
that value within the same call. -/
def NfcDevice.StopDetection (env : Env) (s : NfcState) : ResultCode × NfcState :=
  if s.device_state = DeviceState.Initialized then (ResultCode.Success, s)
  else
    let s1 :=
      if s.device_state = DeviceState.TagFound ∨ s.device_state = DeviceState.TagMounted then
        NfcDevice.CloseAmiibo env s
      else s
    if s1.device_state = DeviceState.SearchingForTag ∨
        s1.device_state = DeviceState.TagRemoved then
      (ResultCode.Success, { s1 with device_state := DeviceState.Initialized })
    else (ResultCode.WrongDeviceState, s1)

/-- Year bits 9-15 of a raw 16-bit amiibo date. -/
def dateYear (raw : Nat) : Nat := (raw >>> 9) &&& 0x7f

/-- Month bits 5-8 of a raw 16-bit amiibo date. -/
def dateMonth (raw : Nat) : Nat := (raw >>> 5) &&& 0xf

/-- Day bits 0-4 of a raw 16-bit amiibo date. -/
def dateDay (raw : Nat) : Nat := raw &&& 0x1f

/-- The output record of `GetTagInfo` (its fixed fields omitted). -/
structure TagInfo where
  uuid_length : Nat
  uuid : List Nat
deriving DecidableEq

/-- The output record of `GetCommonInfo`. -/
structure CommonInfo where
  last_write_year : Nat
  last_write_month : Nat
  last_write_day : Nat
  write_counter : Nat
  character_id : Nat
  character_variant : Nat
  series : Nat
  model_number : Nat
  amiibo_type : Nat
  version : Nat
  application_area_size : Nat
deriving DecidableEq

/-- The output record of `GetModelInfo`. -/
structure ModelInfo where
  character_id : Nat
  character_variant : Nat
  series : Nat
  model_number : Nat
  amiibo_type : Nat
deriving DecidableEq

/-- The output record of `GetRegisterInfo`. -/
structure RegisterInfo where
  mii_data : List Nat
  amiibo_name : List Nat
  flags : Nat
  font_region : Nat
  creation_year : Nat
  creation_month : Nat
  creation_day : Nat
deriving DecidableEq

/-- The output record of `GetAdminInfo` (`tag_type` is always `Type2`,
modelled as 2). -/
structure AdminInfo where
  application_id : Nat
  application_area_id : Nat
  crc_change_counter : Nat
  flags : Nat
  tag_type : Nat
  app_area_version : Nat
deriving DecidableEq

/-- The input record of `SetRegisterInfoPrivate`. -/
structure RegisterInfoPrivate where
  mii_data : List Nat
  amiibo_name : List Nat
deriving DecidableEq

/-- `NfcDevice::GetAmiiboName`: reads the ten big-endian 16-bit name entries
out of the settings block (stored here as its 20 raw bytes). -/
def NfcDevice.GetAmiiboName (settings : AmiiboSettings) : List Nat :=
  (List.range 10).map
    (fun i => 256 * settings.amiibo_name.getD (2 * i) 0 + settings.amiibo_name.getD (2 * i + 1) 0)

/-- `NfcDevice::SetAmiiboName`: stores ten 16-bit entries big-endian. -/
def NfcDevice.SetAmiiboName (settings : AmiiboSettings) (amiibo_name : List Nat) :
    AmiiboSettings :=
  { settings with amiibo_name :=
      ((List.range 10).map
        (fun i => [(amiibo_name.getD i 0 % 65536) >>> 8, amiibo_name.getD i 0 % 256])).flatten }

/-- `NfcDevice::GetTagInfo` (uuid is the 7-byte uid part of the hardware
serial region). -/
def NfcDevice.GetTagInfo (s : NfcState) : ResultCode × Option TagInfo :=
  if s.device_state ≠ DeviceState.TagFound ∧ s.device_state ≠ DeviceState.TagMounted then
    (if s.device_state = DeviceState.TagRemoved then ResultCode.TagRemoved
     else ResultCode.WrongDeviceState, none)
  else
    (ResultCode.Success, some { uuid_length := 7, uuid := memTake s.encrypted_tag.uuid 7 })

/-- `NfcDevice::GetCommonInfo`. -/
def NfcDevice.GetCommonInfo (s : NfcState) : ResultCode × Option CommonInfo :=
  if s.device_state ≠ DeviceState.TagMounted then
    (if s.device_state = DeviceState.TagRemoved then ResultCode.TagRemoved
     else ResultCode.WrongDeviceState, none)
  else if s.mount_target = MountTarget.None ∨ s.mount_target = MountTarget.Rom then
    (ResultCode.WrongDeviceState, none)
  else
    (ResultCode.Success, some
      { last_write_year := dateYear s.tag.settings.write_date
        last_write_month := dateMonth s.tag.settings.write_date
        last_write_day := dateDay s.tag.settings.write_date
        write_counter := s.tag.write_counter
        character_id := s.tag.model_info.character_id
        character_variant := s.tag.model_info.character_variant
        series := s.tag.model_info.series
        model_number := s.tag.model_info.model_number
        amiibo_type := s.tag.model_info.amiibo_type
        version := s.tag.amiibo_version
        application_area_size := 216 })

/-- `NfcDevice::GetModelInfo`: reads the hardware image, so it is legal in
both `TagFound` and `TagMounted`. -/
def NfcDevice.GetModelInfo (s : NfcState) : ResultCode × Option ModelInfo :=
  if s.device_state ≠ DeviceState.TagFound ∧ s.device_state ≠ DeviceState.TagMounted then
    (if s.device_state = DeviceState.TagRemoved then ResultCode.TagRemoved
     else ResultCode.WrongDeviceState, none)
  else
    (ResultCode.Success, some
      { character_id := s.encrypted_tag.user_memory.model_info.character_id
        character_variant := s.encrypted_tag.user_memory.model_info.character_variant
        series := s.encrypted_tag.user_memory.model_info.series
        model_number := s.encrypted_tag.user_memory.model_info.model_number
        amiibo_type := s.encrypted_tag.user_memory.model_info.amiibo_type })

/-- `NfcDevice::GetRegisterInfo`. -/
def NfcDevice.GetRegisterInfo (s : NfcState) : ResultCode × Option RegisterInfo :=
  if s.device_state ≠ DeviceState.TagMounted then
    (if s.device_state = DeviceState.TagRemoved then ResultCode.TagRemoved
     else ResultCode.WrongDeviceState, none)
  else if s.mount_target = MountTarget.None ∨ s.mount_target = MountTarget.Rom then
    (ResultCode.WrongDeviceState, none)
  else if settingsAmiiboInitialized s.tag.settings.settings = 0 then
    (ResultCode.RegistrationIsNotInitialized, none)
  else
    (ResultCode.Success, some
      { mii_data := s.tag.owner_mii
        amiibo_name := NfcDevice.GetAmiiboName s.tag.settings
        flags := s.tag.settings.settings
        font_region := settingsFontRegion s.tag.settings.settings
        creation_year := dateYear s.tag.settings.init_date
        creation_month := dateMonth s.tag.settings.init_date
        creation_day := dateDay s.tag.settings.init_date })

/-- `NfcDevice::GetAdminInfo`. -/
def NfcDevice.GetAdminInfo (s : NfcState) : ResultCode × Option AdminInfo :=
  if s.device_state ≠ DeviceState.TagMounted then
    (if s.device_state = DeviceState.TagRemoved then ResultCode.TagRemoved
     else ResultCode.WrongDeviceState, none)
  else if s.mount_target = MountTarget.None ∨ s.mount_target = MountTarget.Rom then
    (ResultCode.WrongDeviceState, none)
  else
    let raw := s.tag.settings.settings
    let flags0 := (raw >>> 4) % 256
    let flags := if settingsAmiiboInitialized raw = 0 then flags0 &&& 0xfe else flags0
    let out :=
      if settingsAppdataInitialized raw ≠ 0 then
        let application_id := s.tag.application_id
        let app_area_version := (application_id >>> application_id_version_offset) &&& 0xf
        let application_id2 :=
          if application_id >>> 0x38 ≠ 0 then
            NfcDevice.RemoveVersionByte application_id |||
              ((s.tag.application_id_byte &&& 0xf) <<< application_id_version_offset)
          else application_id
        (application_id2, s.tag.application_area_id, app_area_version)
      else (0, 0, appAreaVersionNotSet)
    (ResultCode.Success, some
      { application_id := out.1
        application_area_id := out.2.1
        crc_change_counter := s.tag.settings.crc_counter
        flags := flags
        tag_type := 2
        app_area_version := out.2.2 })

/-- `NfcDevice::DeleteRegisterInfo`: overwrites the identity fields with
bytes from the random source (the name takes the same leading random bytes
as the mii, as both `memcpy` from one buffer), clears the initialized flag
and flushes. -/
def NfcDevice.DeleteRegisterInfo (env : Env) (s : NfcState) : ResultCode × NfcState :=
  if s.device_state ≠ DeviceState.TagMounted then
    (if s.device_state = DeviceState.TagRemoved then ResultCode.TagRemoved
     else ResultCode.WrongDeviceState, s)
  else if s.mount_target = MountTarget.None ∨ s.mount_target = MountTarget.Rom then
    (ResultCode.WrongDeviceState, s)
  else if settingsAmiiboInitialized s.tag.settings.settings = 0 then
    (ResultCode.RegistrationIsNotInitialized, s)
  else
    let tag1 :=
      { s.tag with
        owner_mii := memTake env.random_bytes 92
        unknown := env.random_words.getD 0 0 % 256
        unknown2 :=
          ((s.tag.unknown2.set 0 (env.random_words.getD 1 0 % M32)).set 1
            (env.random_words.getD 2 0 % M32))
        register_info_crc := env.random_words.getD 3 0 % M32
        settings :=
          { s.tag.settings with
            amiibo_name := memTake env.random_bytes 20
            init_date := env.random_words.getD 4 0 % 65536
            settings :=
              assignBit (assignFontRegion0 s.tag.settings.settings) 4 0 } }
    NfcDevice.Flush env { s with tag := tag1 }

/-- `NfcDevice::SetRegisterInfoPrivate`: stamps the dates on first
initialisation, computes the 16-bit mii CRC (over the mii plus its two
padding bytes), stores name and mii, clears the auxiliary fields, recomputes
the register-info CRC and flushes. -/
def NfcDevice.SetRegisterInfoPrivate (env : Env) (register_info : RegisterInfoPrivate)
    (s : NfcState) : ResultCode × NfcState :=
  if s.device_state ≠ DeviceState.TagMounted then
    (if s.device_state = DeviceState.TagRemoved then ResultCode.TagRemoved
     else ResultCode.WrongDeviceState, s)
  else if s.mount_target = MountTarget.None ∨ s.mount_target = MountTarget.Rom then
    (ResultCode.WrongDeviceState, s)
  else
    let settings1 :=
      if settingsAmiiboInitialized s.tag.settings.settings = 0 then
        { s.tag.settings with init_date := env.current_date, write_date := env.current_date }
      else s.tag.settings
    let settings2 := NfcDevice.SetAmiiboName settings1 register_info.amiibo_name
    let tag1 :=
      { s.tag with
        owner_mii_aes_ccm := crc16 (register_info.mii_data ++ [0, 0])
        owner_mii := register_info.mii_data
        mii_extension := 0
        unknown := 0
        unknown2 := List.replicate 5 0
        settings :=
          { settings2 with
            country_code_id := 0
            settings := assignBit (assignFontRegion0 settings2.settings) 4 1 } }
    NfcDevice.Flush env { s with tag := NfcDevice.UpdateRegisterInfoCrc tag1 }

/-- `NfcDevice::OpenApplicationArea`. -/
def NfcDevice.OpenApplicationArea (access_id : Nat) (s : NfcState) :
    ResultCode × NfcState :=
  if s.device_state ≠ DeviceState.TagMounted then
    (if s.device_state = DeviceState.TagRemoved then ResultCode.TagRemoved
     else ResultCode.WrongDeviceState, s)
  else if s.mount_target = MountTarget.None ∨ s.mount_target = MountTarget.Rom then
    (ResultCode.WrongDeviceState, s)
  else if settingsAppdataInitialized s.tag.settings.settings = 0 then
    (ResultCode.ApplicationAreaIsNotInitialized, s)
  else if s.tag.application_area_id ≠ access_id then
    (ResultCode.WrongApplicationAreaId, s)
  else (ResultCode.Success, { s with is_app_area_open := true })

/-- `NfcDevice::GetApplicationAreaId`. -/
def NfcDevice.GetApplicationAreaId (s : NfcState) : ResultCode × Option Nat :=
  if s.device_state ≠ DeviceState.TagMounted then
    (if s.device_state = DeviceState.TagRemoved then ResultCode.TagRemoved
     else ResultCode.WrongDeviceState, none)
  else if s.mount_target = MountTarget.None ∨ s.mount_target = MountTarget.Rom then
    (ResultCode.WrongDeviceState, none)
  else if settingsAppdataInitialized s.tag.settings.settings = 0 then
    (ResultCode.ApplicationAreaIsNotInitialized, none)
  else (ResultCode.Success, some s.tag.application_area_id)

/-- `NfcDevice::GetApplicationArea`: returns the first `min req 216` bytes of
the area, where `req` is the caller's buffer size. -/
def NfcDevice.GetApplicationArea (req : Nat) (s : NfcState) :
    ResultCode × Option (List Nat) :=
  if s.device_state ≠ DeviceState.TagMounted then
    (if s.device_state = DeviceState.TagRemoved then ResultCode.TagRemoved
     else ResultCode.WrongDeviceState, none)
  else if s.mount_target = MountTarget.None ∨ s.mount_target = MountTarget.Rom then
    (ResultCode.WrongDeviceState, none)
  else if ¬ s.is_app_area_open then (ResultCode.WrongDeviceState, none)
  else if settingsAppdataInitialized s.tag.settings.settings = 0 then
    (ResultCode.ApplicationAreaIsNotInitialized, none)
  else (ResultCode.Success, some (s.tag.application_area.take (min req 216)))

/-- `NfcDevice::SetApplicationArea`: writes the payload, pads the rest of the
area with random bytes, and bumps the saturating application write counter
(the size error is reported as `WrongDeviceState` here, unlike
`RecreateApplicationArea`). -/
def NfcDevice.SetApplicationArea (env : Env) (data : List Nat) (s : NfcState) :
    ResultCode × NfcState :=
  if s.device_state ≠ DeviceState.TagMounted then
    (if s.device_state = DeviceState.TagRemoved then ResultCode.TagRemoved
     else ResultCode.WrongDeviceState, s)
  else if s.mount_target = MountTarget.None ∨ s.mount_target = MountTarget.Rom then
    (ResultCode.WrongDeviceState, s)
  else if ¬ s.is_app_area_open then (ResultCode.WrongDeviceState, s)
  else if settingsAppdataInitialized s.tag.settings.settings = 0 then
    (ResultCode.ApplicationAreaIsNotInitialized, s)
  else if 216 < data.length then (ResultCode.WrongDeviceState, s)
  else
    (ResultCode.Success,
      { s with
        tag :=
          { s.tag with
            application_area := data ++ (env.random_bytes.take (216 - data.length))
            application_write_counter := guardedIncrement s.tag.application_write_counter }
        is_data_moddified := true })

/-- `NfcDevice::RecreateApplicationArea`. -/
def NfcDevice.RecreateApplicationArea (env : Env) (access_id : Nat) (data : List Nat)
    (s : NfcState) : ResultCode × NfcState :=
  if s.device_state ≠ DeviceState.TagMounted then
    (if s.device_state = DeviceState.TagRemoved then ResultCode.TagRemoved
     else ResultCode.WrongDeviceState, s)
  else if s.is_app_area_open then (ResultCode.WrongDeviceState, s)
  else if s.mount_target = MountTarget.None ∨ s.mount_target = MountTarget.Rom then
    (ResultCode.WrongDeviceState, s)
  else if 216 < data.length then (ResultCode.WrongApplicationAreaSize, s)
  else
    let tag1 :=
      { s.tag with
        application_area := data ++ (env.random_bytes.take (216 - data.length))
        application_write_counter := guardedIncrement s.tag.application_write_counter }
    let tag2 :=
      match env.program_id with
      | some application_id =>
        { tag1 with
          application_id_byte := (application_id >>> application_id_version_offset) &&& 0xf
          application_id :=
            NfcDevice.RemoveVersionByte application_id |||
              (appAreaVersionNintendo3DSv2 <<< application_id_version_offset) }
      | none => tag1
    let tag3 :=
      { tag2 with
        settings := { tag2.settings with settings := assignBit tag2.settings.settings 5 1 }
        application_area_id := access_id
        unknown := 0
        unknown2 := List.replicate 5 0 }
    NfcDevice.Flush env { s with tag := NfcDevice.UpdateRegisterInfoCrc tag3 }

/-- `NfcDevice::CreateApplicationArea`: fails if an area already exists, then
delegates to `RecreateApplicationArea`. -/
def NfcDevice.CreateApplicationArea (env : Env) (access_id : Nat) (data : List Nat)
    (s : NfcState) : ResultCode × NfcState :=
  if s.device_state ≠ DeviceState.TagMounted then
    (if s.device_state = DeviceState.TagRemoved then ResultCode.TagRemoved
     else ResultCode.WrongDeviceState, s)
  else if settingsAppdataInitialized s.tag.settings.settings ≠ 0 then
    (ResultCode.ApplicationAreaExist, s)
  else NfcDevice.RecreateApplicationArea env access_id data s

/-- `NfcDevice::DeleteApplicationArea`: refills the area and ids with random
data, clears the initialized flag, closes the area and flushes. -/
def NfcDevice.DeleteApplicationArea (env : Env) (s : NfcState) :
    ResultCode × NfcState :=
  if s.device_state ≠ DeviceState.TagMounted then
    (if s.device_state = DeviceState.TagRemoved then ResultCode.TagRemoved
     else ResultCode.WrongDeviceState, s)
  else if s.mount_target = MountTarget.None ∨ s.mount_target = MountTarget.Rom then
    (ResultCode.WrongDeviceState, s)
  else if settingsAppdataInitialized s.tag.settings.settings = 0 then
    (ResultCode.ApplicationAreaIsNotInitialized, s)
  else
    let tag1 :=
      { s.tag with
        application_write_counter := guardedIncrement s.tag.application_write_counter
        application_area := memTake env.random_bytes 216
        application_id := leU64 env.random_bytes
        application_area_id := env.random_words.getD 0 0 % M32
        application_id_byte := env.random_words.getD 1 0 % 256
        settings := { s.tag.settings with settings := assignBit s.tag.settings.settings 5 0 }
        unknown := 0
        unknown2 := List.replicate 5 0 }
    NfcDevice.Flush env
      { s with tag := NfcDevice.UpdateRegisterInfoCrc tag1, is_app_area_open := false }

/-- `NfcDevice::ApplicationAreaExist`. -/
def NfcDevice.ApplicationAreaExist (s : NfcState) : ResultCode × Option Bool :=
  if s.device_state ≠ DeviceState.TagMounted then
    (if s.device_state = DeviceState.TagRemoved then ResultCode.TagRemoved
     else ResultCode.WrongDeviceState, none)
  else if s.mount_target = MountTarget.None ∨ s.mount_target = MountTarget.Rom then
    (ResultCode.WrongDeviceState, none)
  else
    (ResultCode.Success, some (settingsAppdataInitialized s.tag.settings.settings ≠ 0))

/-- `NfcDevice::Format`: delete application area, then delete register info,
reporting the first failure. -/
def NfcDevice.Format (env : Env) (s : NfcState) : ResultCode × NfcState :=
  let r1 := NfcDevice.DeleteApplicationArea env s
  let r2 := NfcDevice.DeleteRegisterInfo env r1.2
  if r1.1 ≠ ResultCode.Success then (r1.1, r2.2)
  else if r2.1 ≠ ResultCode.Success then (r2.1, r2.2)
  else (ResultCode.Success, r2.2)

/-! ## Concrete fixtures used by witnesses and counterexamples -/

/-- An all-zero key template (hmac seed key, type string, magic, pad). -/
def key0 : InternalKey :=
  { hmac_key := List.replicate 16 0
    type_string := List.replicate 14 0
    magic_length := 0
    magic_bytes := List.replicate 16 0
    xor_pad := List.replicate 32 0 }

/-- A loaded key-template pair. -/
def keys0 : Option (InternalKey × InternalKey) := some (key0, key0)

/-- A benign environment: keys loaded, writes succeed. -/
def env0 : Env :=
  { keys_file_exists := true
    keys := keys0
    write_ok := true
    current_date := 0
    random_bytes := []
    random_words := []
    program_id := none }

/-- A hardware image satisfying every structural check of `IsAmiiboValid`. -/
def validEnc : EncryptedNTAG215File :=
  { EncryptedNTAG215File.empty with
    uuid := [0, 0, 0, 0x88, 0, 0, 0, 0, 0, 0]
    static_lock := 0xe00f
    compability_container := 0xeeff10f1
    user_memory :=
      { EncryptedAmiiboFile.empty with
        constant_value := 0xa5
        model_info := { AmiiboModelInfo.empty with constant_value := 0x02 } }
    CFG0 := 0x04000000
    CFG1 := 0x5f }

/-! ## Helper lemmas -/

theorem length_memTake (l : List Nat) (n : Nat) : (memTake l n).length = n := by
  simp [memTake]

theorem memTake_self {l : List Nat} {n : Nat} (h : l.length = n) : memTake l n = l := by
  subst h
  simp [memTake]

theorem memTake_append_left {a : List Nat} (b : List Nat) {n : Nat}
    (h : a.length = n) : memTake (a ++ b) n = a := by
  subst h
  simp [memTake, List.take_append]

theorem drop_append_left {a b : List Nat} {n : Nat} (h : a.length = n) :
    (a ++ b).drop n = b := by
  subst h
  exact List.drop_left a b

/-! ## Claim C4 — layout codec round trip -/

/-- C4 (counterexample): the codec round trip is not the identity.  The
logical image owns members that only the device layer touches (the device
reads `tag.file.amiibo_version` in `GetCommonInfo`), and
`NfcDataToEncodedData` never assigns them, so they come back
value-initialised: an image whose `amiibo_version` is 1 returns with 0. -/
theorem c4_roundtrip_counterexample :
    NfcDataToEncodedData (EncodedDataToNfcData { NTAG215File.empty with amiibo_version := 1 }) ≠
      { NTAG215File.empty with amiibo_version := 1 } := by
  decide

/-- C4 (amended): for a logical image with the fixed 8+2 serial layout, the
codec round trip restores every field the codec transfers exactly; the
device-revision members (`amiibo_version`, `owner_mii_aes_ccm`,
`application_id`, `application_write_counter`, `application_id_byte`,
`mii_extension`, `unknown2`, `register_info_crc`) are reset to their
value-initialised state. -/
theorem c4_roundtrip_on_codec_fields (L : NTAG215File)
    (h8 : L.uuid.length = 8) (h2 : L.uuid2.length = 2) :
    NfcDataToEncodedData (EncodedDataToNfcData L) =
      { L with amiibo_version := 0
               owner_mii_aes_ccm := 0
               application_id := 0
               application_write_counter := 0
               application_id_byte := 0
               mii_extension := 0
               unknown2 := List.replicate 5 0
               register_info_crc := 0 } := by
  have huuid : memTake L.uuid 8 = L.uuid := memTake_self h8
  have huuid2 : memTake L.uuid2 2 = L.uuid2 := memTake_self h2
  simp only [NfcDataToEncodedData, EncodedDataToNfcData, huuid, huuid2]
  rw [drop_append_left h8, memTake_append_left _ h8, memTake_self h2]
  simp [NTAG215File.empty]

/-- C4 (witness): the amended round trip at the all-zero logical image. -/
theorem c4_roundtrip_witness :
    NfcDataToEncodedData (EncodedDataToNfcData NTAG215File.empty) =
      { NTAG215File.empty with
        amiibo_version := 0
        owner_mii_aes_ccm := 0
        application_id := 0
        application_write_counter := 0
        application_id_byte := 0
        mii_extension := 0
        unknown2 := List.replicate 5 0
        register_info_crc := 0 } :=
  c4_roundtrip_on_codec_fields NTAG215File.empty (by decide) (by decide)

/-! ## Claim C8 — structural pre-mount validation -/

/-- The acceptance condition exactly as the claim words it: the two serial
xor self-checks and the five fixed hardware constants. -/
def IsAmiiboValidSpec (f : EncryptedNTAG215File) : Prop :=
  (0x88 ^^^ f.uuid.getD 0 0 ^^^ f.uuid.getD 1 0 ^^^ f.uuid.getD 2 0) = f.uuid.getD 3 0 ∧
  (f.uuid.getD 4 0 ^^^ f.uuid.getD 5 0 ^^^ f.uuid.getD 6 0 ^^^ f.uuid.getD 7 0) =
    f.uuid.getD 8 0 ∧
  f.static_lock = 0xe00f ∧
  f.compability_container = 0xeeff10f1 ∧
  f.user_memory.constant_value = 0xa5 ∧
  f.user_memory.model_info.constant_value = 0x02 ∧
  f.CFG0 = 0x04000000 ∧
  f.CFG1 = 0x5f

/-- C8: `IsAmiiboValid` accepts an image iff the claim's conditions hold, and
from `TagFound` a structurally invalid image makes `Mount` fail with
`NotAnAmiibo` with the device state (whole device, in fact) unchanged, for
every environment — in particular independently of key material and of
cryptographic validity. -/
theorem c8_structural_validation :
    (∀ f, IsAmiiboValid f = true ↔ IsAmiiboValidSpec f) ∧
    (∀ env t s, s.device_state = DeviceState.TagFound →
      IsAmiiboValid s.encrypted_tag = false →
      NfcDevice.Mount env t s = (ResultCode.NotAnAmiibo, s)) := by
  constructor
  · intro f
    simp only [IsAmiiboValid, IsAmiiboValidSpec]
    split_ifs with h1 h2 h3 h4 h5 h6 h7 h8 <;> simp_all
  · intro env t s h1 h2
    simp [NfcDevice.Mount, h1, h2]

/-- C8 (witness): the all-zero image fails the first serial self-check and
`Mount` rejects it with `NotAnAmiibo`. -/
theorem c8_structural_validation_witness :
    NfcDevice.Mount env0 MountTarget.All
        { NfcState.empty with device_state := DeviceState.TagFound } =
      (ResultCode.NotAnAmiibo, { NfcState.empty with device_state := DeviceState.TagFound }) :=
  c8_structural_validation.2 env0 MountTarget.All
    { NfcState.empty with device_state := DeviceState.TagFound } rfl (by decide)

/-! ## Claim C5 — StopDetection transitions -/

/-- C5 (counterexample): `StopDetection` from `TagFound` does not leave the
device in `TagRemoved` — the two state tests in the source are separate `if`
statements, so after `CloseAmiibo` has set `TagRemoved` the same call
continues to `Initialized`. -/
theorem c5_stop_detection_counterexample :
    (NfcDevice.StopDetection env0
      { NfcState.empty with device_state := DeviceState.TagFound }).2.device_state =
        DeviceState.Initialized ∧
    DeviceState.Initialized ≠ DeviceState.TagRemoved := by
  decide

/-- C5 (amended): `StopDetection` from `TagFound` or `TagMounted` removes the
tag (clearing both images, clearing the in-range event and signalling the
out-of-range event via `CloseAmiibo`, which unmounts first if mounted) and —
within the same call — continues through `TagRemoved` to `Initialized`,
returning success; from `TagRemoved` it returns to `Initialized`. -/
theorem c5_stop_detection :
    (∀ env s,
      (s.device_state = DeviceState.TagFound ∨ s.device_state = DeviceState.TagMounted) →
      (NfcDevice.StopDetection env s).1 = ResultCode.Success ∧
      (NfcDevice.StopDetection env s).2.device_state = DeviceState.Initialized ∧
      (NfcDevice.StopDetection env s).2.encrypted_tag = EncryptedNTAG215File.empty ∧
      (NfcDevice.StopDetection env s).2.tag = NTAG215File.empty ∧
      (NfcDevice.StopDetection env s).2.tag_in_range_event = false ∧
      (NfcDevice.StopDetection env s).2.tag_out_of_range_event = true) ∧
    (∀ env s, s.device_state = DeviceState.TagRemoved →
      NfcDevice.StopDetection env s =
        (ResultCode.Success, { s with device_state := DeviceState.Initialized })) := by
  constructor
  · intro env s h
    rcases h with h | h <;>
      simp [NfcDevice.StopDetection, NfcDevice.CloseAmiibo, h]
  · intro env s h
    simp [NfcDevice.StopDetection, h]

/-- C5 (witness): the amended transitions at a concrete found-tag state and a
concrete removed-tag state. -/
theorem c5_stop_detection_witness :
    ((NfcDevice.StopDetection env0
        { NfcState.empty with device_state := DeviceState.TagFound }).1 = ResultCode.Success ∧
      (NfcDevice.StopDetection env0
        { NfcState.empty with device_state := DeviceState.TagFound }).2.device_state =
        DeviceState.Initialized ∧
      (NfcDevice.StopDetection env0
        { NfcState.empty with device_state := DeviceState.TagFound }).2.encrypted_tag =
        EncryptedNTAG215File.empty ∧
      (NfcDevice.StopDetection env0
        { NfcState.empty with device_state := DeviceState.TagFound }).2.tag =
        NTAG215File.empty ∧
      (NfcDevice.StopDetection env0
        { NfcState.empty with device_state := DeviceState.TagFound }).2.tag_in_range_event =
        false ∧
      (NfcDevice.StopDetection env0
        { NfcState.empty with device_state := DeviceState.TagFound }).2.tag_out_of_range_event =
        true) ∧
    NfcDevice.StopDetection env0 { NfcState.empty with device_state := DeviceState.TagRemoved } =
      (ResultCode.Success,
        { { NfcState.empty with device_state := DeviceState.TagRemoved } with
            device_state := DeviceState.Initialized }) :=
  ⟨c5_stop_detection.1 env0 { NfcState.empty with device_state := DeviceState.TagFound }
      (Or.inl rfl),
    c5_stop_detection.2 env0 { NfcState.empty with device_state := DeviceState.TagRemoved } rfl⟩

/-! ## Claim C7 — Mount/Flush atomicity on the device state -/

/-- C7: whenever `Mount` or `Flush` returns an error, the `device_state` and
`mount_target` fields are unchanged; and the read-only fallback — a valid
image mounted without key material — succeeds and transitions to
`TagMounted` with mount target `Rom`. -/
theorem c7_mount_flush_atomicity :
    (∀ env t s, (NfcDevice.Mount env t s).1 ≠ ResultCode.Success →
      (NfcDevice.Mount env t s).2.device_state = s.device_state ∧
      (NfcDevice.Mount env t s).2.mount_target = s.mount_target) ∧
    (∀ env s, (NfcDevice.Flush env s).1 ≠ ResultCode.Success →
      (NfcDevice.Flush env s).2.device_state = s.device_state ∧
      (NfcDevice.Flush env s).2.mount_target = s.mount_target) ∧
    (∀ env t s, s.device_state = DeviceState.TagFound →
      IsAmiiboValid s.encrypted_tag = true →
      env.keys_file_exists = false →
      NfcDevice.Mount env t s =
        (ResultCode.Success,
          { s with device_state := DeviceState.TagMounted
                   mount_target := MountTarget.Rom })) := by
  refine ⟨?_, ?_, ?_⟩
  · intro env t s h
    by_cases h1 : s.device_state = DeviceState.TagFound
    · by_cases h2 : IsAmiiboValid s.encrypted_tag
      · by_cases h3 : env.keys_file_exists
        · simp only [NfcDevice.Mount, h1, h2, h3] at h ⊢
          rcases hD : DecodeAmiibo env.keys s.encrypted_tag s.tag with ⟨ok, tag1⟩
          rcases ok <;> simp_all
        · simp_all [NfcDevice.Mount]
      · simp_all [NfcDevice.Mount]
    · simp_all [NfcDevice.Mount]
  · intro env s h
    by_cases h1 : s.device_state = DeviceState.TagMounted
    · by_cases h2 : s.mount_target = MountTarget.None ∨ s.mount_target = MountTarget.Rom
      · simp_all [NfcDevice.Flush]
      · rcases hk : env.keys with _ | ⟨u, l⟩ <;>
          simp only [NfcDevice.Flush, EncodeAmiibo, hk, h1, h2] at h ⊢ <;>
          split_ifs at h ⊢ <;> simp_all
    · simp_all [NfcDevice.Flush]
  · intro env t s h1 h2 h3
    simp [NfcDevice.Mount, h1, h2, h3]

/-- C7 (witness): a rejected `Mount` and `Flush` on an idle device leave the
state fields alone; a valid image with no key file mounts read-only. -/
theorem c7_mount_flush_atomicity_witness :
    ((NfcDevice.Mount env0 MountTarget.All NfcState.empty).2.device_state =
        NfcState.empty.device_state ∧
      (NfcDevice.Mount env0 MountTarget.All NfcState.empty).2.mount_target =
        NfcState.empty.mount_target) ∧
    ((NfcDevice.Flush env0 NfcState.empty).2.device_state = NfcState.empty.device_state ∧
      (NfcDevice.Flush env0 NfcState.empty).2.mount_target = NfcState.empty.mount_target) ∧
    NfcDevice.Mount { env0 with keys_file_exists := false } MountTarget.All
        { NfcState.empty with device_state := DeviceState.TagFound, encrypted_tag := validEnc } =
      (ResultCode.Success,
        { { NfcState.empty with
              device_state := DeviceState.TagFound, encrypted_tag := validEnc } with
            device_state := DeviceState.TagMounted
            mount_target := MountTarget.Rom }) :=
  ⟨c7_mount_flush_atomicity.1 env0 MountTarget.All NfcState.empty (by decide),
    c7_mount_flush_atomicity.2.1 env0 NfcState.empty (by decide),
    c7_mount_flush_atomicity.2.2 { env0 with keys_file_exists := false } MountTarget.All
      { NfcState.empty with device_state := DeviceState.TagFound, encrypted_tag := validEnc }
      rfl (by decide) rfl⟩

/-! ## Claim C10 — Flush mutates the in-memory image before persisting -/

/-- C10: on the writable mounted path, `Flush` increments the 16-bit write
counter and stamps the current date into the write-date field before
encoding and persistence are attempted, so these mutations are present in
the returned state even when `Flush` fails; and the modified flag is left
untouched by every non-success return. -/
theorem c10_flush_mutates_before_persist :
    (∀ env s, s.device_state = DeviceState.TagMounted →
      s.mount_target ≠ MountTarget.None → s.mount_target ≠ MountTarget.Rom →
      (NfcDevice.Flush env s).2.tag.write_counter = (s.tag.write_counter + 1) % 65536 ∧
      (NfcDevice.Flush env s).2.tag.settings.write_date = env.current_date) ∧
    (∀ env s, (NfcDevice.Flush env s).1 ≠ ResultCode.Success →
      (NfcDevice.Flush env s).2.is_data_moddified = s.is_data_moddified) := by
  constructor
  · intro env s h1 h2 h3
    have hmt : ¬ (s.mount_target = MountTarget.None ∨ s.mount_target = MountTarget.Rom) := by
      tauto
    rcases hk : env.keys with _ | ⟨u, l⟩ <;>
      simp only [NfcDevice.Flush, EncodeAmiibo, hk, h1, hmt] <;>
      by_cases hd : s.tag.settings.write_date = env.current_date <;>
      simp_all [NfcDevice.UpdateSettingsCrc] <;> split_ifs <;> simp_all
  · intro env s h
    by_cases h1 : s.device_state = DeviceState.TagMounted
    · by_cases h2 : s.mount_target = MountTarget.None ∨ s.mount_target = MountTarget.Rom
      · simp_all [NfcDevice.Flush]
      · rcases hk : env.keys with _ | ⟨u, l⟩ <;>
          simp only [NfcDevice.Flush, EncodeAmiibo, hk, h1, h2] at h ⊢ <;>
          split_ifs at h ⊢ <;> simp_all
    · simp_all [NfcDevice.Flush]

/-- C10 (witness): a mounted writable device whose key templates fail to load
gets `WriteAmiiboFailed` from `Flush`, yet the returned state carries the
incremented write counter, the stamped date, and the untouched modified
flag. -/
theorem c10_flush_mutates_witness :
    ((NfcDevice.Flush { env0 with keys := none }
        { NfcState.empty with
            device_state := DeviceState.TagMounted
            mount_target := MountTarget.Ram
            is_data_moddified := true }).2.tag.write_counter =
      (({ NfcState.empty with
            device_state := DeviceState.TagMounted
            mount_target := MountTarget.Ram
            is_data_moddified := true } : NfcState).tag.write_counter + 1) % 65536 ∧
      (NfcDevice.Flush { env0 with keys := none }
        { NfcState.empty with
            device_state := DeviceState.TagMounted
            mount_target := MountTarget.Ram
            is_data_moddified := true }).2.tag.settings.write_date =
        ({ env0 with keys := none } : Env).current_date) ∧
    (NfcDevice.Flush { env0 with keys := none }
        { NfcState.empty with
            device_state := DeviceState.TagMounted
            mount_target := MountTarget.Ram
            is_data_moddified := true }).2.is_data_moddified =
      ({ NfcState.empty with
            device_state := DeviceState.TagMounted
            mount_target := MountTarget.Ram
            is_data_moddified := true } : NfcState).is_data_moddified :=
  ⟨c10_flush_mutates_before_persist.1 { env0 with keys := none }
      { NfcState.empty with
          device_state := DeviceState.TagMounted
          mount_target := MountTarget.Ram
          is_data_moddified := true } rfl (by decide) (by decide),
    c10_flush_mutates_before_persist.2 { env0 with keys := none }
      { NfcState.empty with
          device_state := DeviceState.TagMounted
          mount_target := MountTarget.Ram
          is_data_moddified := true } (by decide)⟩

/-! ## Claim C9 — application write counter saturation -/

/-- `Flush` never touches the application write counter. -/
theorem flush_preserves_app_counter (env : Env) (s : NfcState) :
    (NfcDevice.Flush env s).2.tag.application_write_counter =
      s.tag.application_write_counter := by
  by_cases h1 : s.device_state = DeviceState.TagMounted
  · by_cases h2 : s.mount_target = MountTarget.None ∨ s.mount_target = MountTarget.Rom
    · simp_all [NfcDevice.Flush]
    · rcases hk : env.keys with _ | ⟨u, l⟩ <;>
        simp only [NfcDevice.Flush, EncodeAmiibo, hk, h1, h2] <;>
        by_cases hd : s.tag.settings.write_date = env.current_date <;>
        simp_all [NfcDevice.UpdateSettingsCrc] <;> split_ifs <;> simp_all
  · simp_all [NfcDevice.Flush]

/-- One application-area call of the claim's sequence, with its own
environment and arguments. -/
inductive AppAreaOp where
  | set (env : Env) (data : List Nat)
  | create (env : Env) (access_id : Nat) (data : List Nat)
  | recreate (env : Env) (access_id : Nat) (data : List Nat)
  | delete (env : Env)

/-- Run one application-area call, keeping the resulting device state. -/
def AppAreaOp.apply : AppAreaOp → NfcState → NfcState
  | .set env data, s => (NfcDevice.SetApplicationArea env data s).2
  | .create env a d, s => (NfcDevice.CreateApplicationArea env a d s).2
  | .recreate env a d, s => (NfcDevice.RecreateApplicationArea env a d s).2
  | .delete env, s => (NfcDevice.DeleteApplicationArea env s).2

/-- Run a sequence of application-area calls. -/
def runAppAreaOps (ops : List AppAreaOp) (s : NfcState) : NfcState :=
  ops.foldl (fun s op => op.apply s) s

/-- Each application-area call either leaves the application write counter
alone or performs the guarded 16-bit increment. -/
theorem appAreaOp_counter_step (op : AppAreaOp) (s : NfcState) :
    (op.apply s).tag.application_write_counter = s.tag.application_write_counter ∨
    (op.apply s).tag.application_write_counter =
      guardedIncrement s.tag.application_write_counter := by
  rcases op with ⟨env, data⟩ | ⟨env, a, d⟩ | ⟨env, a, d⟩ | env
  · simp only [AppAreaOp.apply, NfcDevice.SetApplicationArea]
    split_ifs <;> simp
  · rcases hp : env.program_id with _ | pid <;>
      simp only [AppAreaOp.apply, NfcDevice.CreateApplicationArea,
        NfcDevice.RecreateApplicationArea, hp] <;>
      split_ifs <;>
      simp [flush_preserves_app_counter, NfcDevice.UpdateRegisterInfoCrc]
  · rcases hp : env.program_id with _ | pid <;>
      simp only [AppAreaOp.apply, NfcDevice.RecreateApplicationArea, hp] <;>
      split_ifs <;>
      simp [flush_preserves_app_counter, NfcDevice.UpdateRegisterInfoCrc]
  · simp only [AppAreaOp.apply, NfcDevice.DeleteApplicationArea]
    split_ifs <;>
      simp [flush_preserves_app_counter, NfcDevice.UpdateRegisterInfoCrc]

/-- The guarded increment never exceeds the limit. -/
theorem guardedIncrement_le {c : Nat} (h : c ≤ counter_limit) :
    guardedIncrement c ≤ counter_limit := by
  unfold guardedIncrement counter_limit at *
  split_ifs <;> omega

/-- The guarded increment saturates at the limit. -/
theorem guardedIncrement_eq_limit {c : Nat} (h : c = counter_limit) :
    guardedIncrement c = counter_limit := by
  simp [guardedIncrement, h]

/-- C9: over every sequence of `SetApplicationArea`, `CreateApplicationArea`,
`RecreateApplicationArea` and `DeleteApplicationArea` calls (each with its
own environment and arguments), the application write counter never exceeds
`counter_limit`, and once at `counter_limit` it stays there. -/
theorem c9_app_counter_saturates (ops : List AppAreaOp) (s : NfcState) :
    (s.tag.application_write_counter ≤ counter_limit →
      (runAppAreaOps ops s).tag.application_write_counter ≤ counter_limit) ∧
    (s.tag.application_write_counter = counter_limit →
      (runAppAreaOps ops s).tag.application_write_counter = counter_limit) := by
  induction ops generalizing s with
  | nil => exact ⟨fun h => h, fun h => h⟩
  | cons op rest ih =>
    have hstep := appAreaOp_counter_step op s
    have hrun : runAppAreaOps (op :: rest) s = runAppAreaOps rest (op.apply s) := rfl
    rw [hrun]
    constructor
    · intro h
      refine (ih (op.apply s)).1 ?_
      rcases hstep with h1 | h1 <;> rw [h1]
      · exact h
      · exact guardedIncrement_le h
    · intro h
      refine (ih (op.apply s)).2 ?_
      rcases hstep with h1 | h1 <;> rw [h1]
      · exact h
      · exact guardedIncrement_eq_limit h

/-- A device whose application write counter already sits at the limit. -/
def sAtLimit : NfcState :=
  { NfcState.empty with
      tag := { NTAG215File.empty with application_write_counter := counter_limit } }

/-- A concrete two-call sequence. -/
def opsW : List AppAreaOp := [AppAreaOp.set env0 [], AppAreaOp.delete env0]

/-- C9 (witness): a device already at the counter limit stays exactly at the
limit across a concrete call sequence. -/
theorem c9_app_counter_saturates_witness :
    (runAppAreaOps opsW sAtLimit).tag.application_write_counter ≤ counter_limit ∧
    (runAppAreaOps opsW sAtLimit).tag.application_write_counter = counter_limit :=
  ⟨(c9_app_counter_saturates opsW sAtLimit).1 (by decide),
    (c9_app_counter_saturates opsW sAtLimit).2 (by decide)⟩

/-! ## Claim C6 — mounted-state gating -/

/-- The refined wrong-state result: `TagRemoved` when the tag was removed,
`WrongDeviceState` otherwise. -/
def gateResult (s : NfcState) : ResultCode :=
  if s.device_state = DeviceState.TagRemoved then ResultCode.TagRemoved
  else ResultCode.WrongDeviceState

/-- C6 (counterexample): the claim requires every listed operation, including
`GetTagInfo` and `GetModelInfo`, to fail whenever the state is not
`TagMounted`; but both succeed in `TagFound`. -/
theorem c6_gating_counterexample :
    ({ NfcState.empty with device_state := DeviceState.TagFound } : NfcState).device_state ≠
        DeviceState.TagMounted ∧
    (NfcDevice.GetTagInfo { NfcState.empty with device_state := DeviceState.TagFound }).1 =
      ResultCode.Success ∧
    (NfcDevice.GetModelInfo { NfcState.empty with device_state := DeviceState.TagFound }).1 =
      ResultCode.Success := by
  decide

/-- C6 (amended): `GetTagInfo` and `GetModelInfo` are legal in `TagFound` as
well as `TagMounted` and return the refined wrong-state result elsewhere;
every other listed operation requires `TagMounted`, returning `TagRemoved`
when the state is `TagRemoved` and `WrongDeviceState` otherwise, with the
device unchanged and no output produced; and in `TagMounted` with mount
target `None` or `Rom`, the remaining info queries and the mutating
operations (except `CreateApplicationArea`, which reports an existing area
first) return `WrongDeviceState` with the device unchanged. -/
theorem c6_gating :
    (∀ s, s.device_state ≠ DeviceState.TagFound → s.device_state ≠ DeviceState.TagMounted →
      NfcDevice.GetTagInfo s = (gateResult s, none) ∧
      NfcDevice.GetModelInfo s = (gateResult s, none)) ∧
    (∀ s, s.device_state = DeviceState.TagFound →
      (NfcDevice.GetTagInfo s).1 = ResultCode.Success ∧
      (NfcDevice.GetModelInfo s).1 = ResultCode.Success) ∧
    (∀ s, s.device_state ≠ DeviceState.TagMounted →
      NfcDevice.GetCommonInfo s = (gateResult s, none) ∧
      NfcDevice.GetRegisterInfo s = (gateResult s, none) ∧
      NfcDevice.GetAdminInfo s = (gateResult s, none) ∧
      NfcDevice.GetApplicationAreaId s = (gateResult s, none) ∧
      (∀ req, NfcDevice.GetApplicationArea req s = (gateResult s, none)) ∧
      NfcDevice.ApplicationAreaExist s = (gateResult s, none)) ∧
    (∀ env s, s.device_state ≠ DeviceState.TagMounted →
      (∀ data, NfcDevice.SetApplicationArea env data s = (gateResult s, s)) ∧
      (∀ a d, NfcDevice.CreateApplicationArea env a d s = (gateResult s, s)) ∧
      (∀ a d, NfcDevice.RecreateApplicationArea env a d s = (gateResult s, s)) ∧
      NfcDevice.DeleteApplicationArea env s = (gateResult s, s) ∧
      (∀ a, NfcDevice.OpenApplicationArea a s = (gateResult s, s)) ∧
      NfcDevice.DeleteRegisterInfo env s = (gateResult s, s) ∧
      (∀ r, NfcDevice.SetRegisterInfoPrivate env r s = (gateResult s, s)) ∧
      NfcDevice.Flush env s = (gateResult s, s)) ∧
    (∀ env s, s.device_state = DeviceState.TagMounted →
      (s.mount_target = MountTarget.None ∨ s.mount_target = MountTarget.Rom) →
      (NfcDevice.GetCommonInfo s).1 = ResultCode.WrongDeviceState ∧
      (NfcDevice.GetRegisterInfo s).1 = ResultCode.WrongDeviceState ∧
      (NfcDevice.GetAdminInfo s).1 = ResultCode.WrongDeviceState ∧
      (NfcDevice.GetApplicationAreaId s).1 = ResultCode.WrongDeviceState ∧
      (∀ req, (NfcDevice.GetApplicationArea req s).1 = ResultCode.WrongDeviceState) ∧
      (NfcDevice.ApplicationAreaExist s).1 = ResultCode.WrongDeviceState ∧
      (∀ data, NfcDevice.SetApplicationArea env data s = (ResultCode.WrongDeviceState, s)) ∧
      (∀ a d, NfcDevice.RecreateApplicationArea env a d s = (ResultCode.WrongDeviceState, s)) ∧
      NfcDevice.DeleteApplicationArea env s = (ResultCode.WrongDeviceState, s) ∧
      (∀ a, NfcDevice.OpenApplicationArea a s = (ResultCode.WrongDeviceState, s)) ∧
      NfcDevice.DeleteRegisterInfo env s = (ResultCode.WrongDeviceState, s) ∧
      (∀ r, NfcDevice.SetRegisterInfoPrivate env r s = (ResultCode.WrongDeviceState, s)) ∧
      NfcDevice.Flush env s = (ResultCode.WrongDeviceState, s)) := by
  refine ⟨?_, ?_, ?_, ?_, ?_⟩
  · intro s h1 h2
    constructor <;> simp [NfcDevice.GetTagInfo, NfcDevice.GetModelInfo, gateResult, h1, h2]
  · intro s h
    constructor <;> simp [NfcDevice.GetTagInfo, NfcDevice.GetModelInfo, h]
  · intro s h
    refine ⟨?_, ?_, ?_, ?_, ?_, ?_⟩ <;>
      simp [NfcDevice.GetCommonInfo, NfcDevice.GetRegisterInfo, NfcDevice.GetAdminInfo,
        NfcDevice.GetApplicationAreaId, NfcDevice.GetApplicationArea,
        NfcDevice.ApplicationAreaExist, gateResult, h]
  · intro env s h
    refine ⟨?_, ?_, ?_, ?_, ?_, ?_, ?_, ?_⟩ <;>
      simp [NfcDevice.SetApplicationArea, NfcDevice.CreateApplicationArea,
        NfcDevice.RecreateApplicationArea, NfcDevice.DeleteApplicationArea,
        NfcDevice.OpenApplicationArea, NfcDevice.DeleteRegisterInfo,
        NfcDevice.SetRegisterInfoPrivate, NfcDevice.Flush, gateResult, h]
  · intro env s h1 h2
    refine ⟨?_, ?_, ?_, ?_, ?_, ?_, ?_, ?_, ?_, ?_, ?_, ?_, ?_⟩ <;>
      first
      | (simp [NfcDevice.GetCommonInfo, NfcDevice.GetRegisterInfo, NfcDevice.GetAdminInfo,
          NfcDevice.GetApplicationAreaId, NfcDevice.GetApplicationArea,
          NfcDevice.ApplicationAreaExist, NfcDevice.SetApplicationArea,
          NfcDevice.DeleteApplicationArea, NfcDevice.OpenApplicationArea,
          NfcDevice.DeleteRegisterInfo, NfcDevice.SetRegisterInfoPrivate,
          NfcDevice.Flush, h1, h2])
      | (intro a d
         by_cases ho : s.is_app_area_open <;>
           simp [NfcDevice.RecreateApplicationArea, h1, h2, ho])

/-- C6 (witness): the amended gating at concrete states — the info queries
succeed at a found tag, a write is rejected on an idle device leaving it
unchanged, and a query is rejected on a read-only mount. -/
theorem c6_gating_witness :
    ((NfcDevice.GetTagInfo { NfcState.empty with device_state := DeviceState.TagFound }).1 =
        ResultCode.Success ∧
      (NfcDevice.GetModelInfo { NfcState.empty with device_state := DeviceState.TagFound }).1 =
        ResultCode.Success) ∧
    NfcDevice.SetApplicationArea env0 [] NfcState.empty =
      (gateResult NfcState.empty, NfcState.empty) ∧
    (NfcDevice.GetCommonInfo
        { NfcState.empty with
            device_state := DeviceState.TagMounted
            mount_target := MountTarget.Rom }).1 = ResultCode.WrongDeviceState :=
  ⟨c6_gating.2.1 { NfcState.empty with device_state := DeviceState.TagFound } rfl,
    (c6_gating.2.2.2.1 env0 NfcState.empty (by decide)).1 [],
    (c6_gating.2.2.2.2 env0
        { NfcState.empty with
            device_state := DeviceState.TagMounted
            mount_target := MountTarget.Rom } rfl (Or.inr rfl)).1⟩

/-! ## Claim C3 — cipher self-inverse -/

/-- A concrete derived key set (its value is irrelevant: the source's cipher
never reads it). -/
def dk0 : DerivedKeys :=
  { aes_key := List.replicate 16 0
    aes_iv := List.replicate 16 0
    hmac_key := List.replicate 16 0 }

/-- A tag image with a non-zero mutable region. -/
def tagB : NTAG215File :=
  { NTAG215File.empty with application_area := List.replicate 216 7 }

/-- C3: the cipher is not self-inverse on the code as written.  `Apply(K, B)`
is `Cipher` into a fresh value-initialised output, as `EncodeAmiibo` and
`DecodeAmiibo` use it; because the AES-CTR call is commented out, the
mutable region of the output stays zero, so applying the operation twice to
an image with non-zero application data returns a different image. -/
theorem c3_cipher_not_self_inverse :
    (Cipher dk0 (Cipher dk0 tagB NTAG215File.empty) NTAG215File.empty).application_area =
      List.replicate 216 0 ∧
    tagB.application_area = List.replicate 216 7 ∧
    Cipher dk0 (Cipher dk0 tagB NTAG215File.empty) NTAG215File.empty ≠ tagB := by
  decide

/-! ## Claim C1 — authenticated round trip -/

/-- A logical image with non-zero owner identity bytes. -/
def tagL1 : NTAG215File :=
  { NTAG215File.empty with owner_mii := List.replicate 92 1 }

/-- C1: with key templates that load successfully, `EncodeAmiibo` followed by
`DecodeAmiibo` returns true and the MAC comparisons pass, but only because
the commented-out HMAC code leaves zero MACs on both sides; the decoded
output does not reproduce the owner identity (nor any other field of the
encrypted region) — it comes back zeroed, not merely differing in write
counter and date. -/
theorem c1_round_trip_loses_data :
    (EncodeAmiibo keys0 tagL1 EncryptedNTAG215File.empty).1 = true ∧
    (DecodeAmiibo keys0 (EncodeAmiibo keys0 tagL1 EncryptedNTAG215File.empty).2
        NTAG215File.empty).1 = true ∧
    (DecodeAmiibo keys0 (EncodeAmiibo keys0 tagL1 EncryptedNTAG215File.empty).2
        NTAG215File.empty).2.owner_mii = List.replicate 92 0 ∧
    tagL1.owner_mii = List.replicate 92 1 := by
  decide

/-! ## Claim C2 — key derivation -/

/-- The key derivation exactly as the claim states it: one HMAC-SHA256 keyed
by the template's HMAC seed key over the 2-byte prefix followed by one copy
of the internal key buffer, with the digest reinterpreted at the same fixed
offsets. -/
def GenerateKeyClaimed (key : InternalKey) (data : NTAG215File) : DerivedKeys :=
  let seed := GetSeed data
  let internal_key := GenerateInternalKey key seed
  let d := hmacSha256 (memTake key.hmac_key 16) ([0x00, 0x01] ++ internal_key)
  { aes_key := d.take 16
    aes_iv := (d.drop 16).take 16
    hmac_key := memTake (d.drop 32) 16 }

/-- C2 (counterexample): the digest actually computed differs from the
claim's single-copy digest at a concrete key template and tag image, because
CryptoPP's `CalculateDigest` appends its input to the already-updated
message, so the internal key buffer is hashed twice. -/
theorem c2_generate_key_counterexample :
    GenerateKey key0 NTAG215File.empty ≠ GenerateKeyClaimed key0 NTAG215File.empty := by
  decide

/-- The key derivation with the message the source actually feeds to the
HMAC: the 2-byte prefix followed by two copies of the internal key buffer. -/
def GenerateKeyAmended (key : InternalKey) (data : NTAG215File) : DerivedKeys :=
  let seed := GetSeed data
  let internal_key := GenerateInternalKey key seed
  let d := hmacSha256 (memTake key.hmac_key 16)
    ([0x00, 0x01] ++ internal_key ++ internal_key)
  { aes_key := d.take 16
    aes_iv := (d.drop 16).take 16
    hmac_key := memTake (d.drop 32) 16 }

/-- C2 (amended): for every key template and tag image, `GenerateKey` — the
incremental `Update`/`Update`/`CalculateDigest` trace of the source — equals
the digest of one HMAC-SHA256 over the prefix and two copies of the internal
key buffer, reinterpreted at the fixed offsets (the HMAC-key slot lies past
the 32-byte digest and is the modelled-zero uninitialised tail). -/
theorem c2_generate_key_two_copies (key : InternalKey) (data : NTAG215File) :
    GenerateKey key data = GenerateKeyAmended key data := by
  simp [GenerateKey, GenerateKeyAmended, HmacContext.init, HmacContext.update,
    HmacContext.calculateDigest, List.append_assoc]
